import Mathlib

/-!
# Verification of the gloop scheduling core

Shallow embedding of the `gloop` game-loop library (Go). `time.Duration`
is an `int64` count of nanoseconds. The two periods are validated to be
positive at construction, and wall-clock deltas come from Go's monotonic
clock, so the tick/accumulator arithmetic is modelled over `Nat`; the
construction and lifecycle paths, where the sign check matters, use `Int`.
-/

namespace Gloop

/-- Error source tags (`TokenSource` in the Go code): `TokenLoop`,
`TokenSimulate`, `TokenRender`. -/
inductive TokenSource where
  | loop
  | simulate
  | render
deriving DecidableEq, Repr

/-- A Go `error` value as seen by this library: either a `LoopError`
produced by `wrapLoopError(err, source, message)` (src/loopError.go) or an
opaque caller-supplied error (`Stop(err)` accepts any error). `Option
GoError` models a nilable `error`. -/
inductive GoError where
  | wrapped (source : TokenSource) (message : String)
  | user (code : Nat)
deriving DecidableEq, Repr

/-- Loop lifecycle states (src/loop.go lines 14-18):
`stateInit`, `stateRun`, `stateStop`. -/
inductive LoopState where
  | stInit
  | stRun
  | stStop
deriving DecidableEq, Repr

/-- The `Loop` struct of src/loop.go (lines 26-42), restricted to the
fields the lifecycle claims are about. `doneClosedCount` counts how many
times `close(l.done)` has executed (closing an already-closed Go channel
panics, so "closed exactly once" is the property of interest); the
channels themselves carry no other state the claims need. -/
structure Loop where
  renderLatency : Int
  simulationLatency : Int
  curState : LoopState
  err : Option GoError
  doneClosedCount : Nat
deriving DecidableEq, Repr

/-- `Loop.Stop` (src/loop.go lines 87-95): under the mutex, if the state
is not `stateStop`, close the done channel, record the error and move to
`stateStop`; otherwise do nothing. -/
def stop (l : Loop) (e : Option GoError) : Loop :=
  if l.curState ≠ LoopState.stStop then
    { l with doneClosedCount := l.doneClosedCount + 1, err := e,
             curState := LoopState.stStop }
  else l

/-- Result of `Loop.Start` (src/loop.go lines 112-212): the loop state
after the call, the returned error, and whether the background goroutine
was launched. -/
structure StartResult where
  loop : Loop
  ret : Option GoError
  launched : Bool
deriving DecidableEq, Repr

/-- The synchronous part of `Loop.Start` (src/loop.go lines 112-124):
under the mutex, a loop that is not in `stateInit` gets back a
`LoopError` with source `TokenLoop` and nothing else happens; otherwise
the state becomes `stateRun` and exactly one goroutine is launched. -/
def startGo (l : Loop) : StartResult :=
  if l.curState ≠ LoopState.stInit then
    { loop := l,
      ret := some (GoError.wrapped TokenSource.loop
        "Loop is already running or is done"),
      launched := false }
  else
    { loop := { l with curState := LoopState.stRun }, ret := none,
      launched := true }

/-- `NewLoop` (src/loop.go lines 45-65). The Go constructor returns
`(*Loop, error)`, modelled as `Except`; the `List Nat` in the success
value is the trace of step arguments passed to either callback during
construction — the constructor only builds the record, so the trace is
empty. -/
def NewLoop (renderLatency simulationLatency : Int) :
    Except GoError (Loop × List Nat) :=
  if renderLatency ≤ 0 then
    Except.error (GoError.wrapped TokenSource.loop "RenderRate can't be lte 0")
  else if simulationLatency ≤ 0 then
    Except.error (GoError.wrapped TokenSource.loop "SimulationRate can't be lte 0")
  else
    Except.ok
      ({ renderLatency := renderLatency,
         simulationLatency := simulationLatency,
         curState := LoopState.stInit, err := none, doneClosedCount := 0 },
       [])

/-! ## The fixed-step catch-up drain

`for simAccumulator >= l.SimulationLatency { ... }` in src/loop.go lines
172-187 (identical in src/unnamed/part_002 lines 176-190 with field name
`SimulationRate`). -/

/-- Result of one run of the catch-up drain: the list of step arguments
passed to `Simulate`, the final accumulator, and whether the drain was cut
short by a callback error (`break` without subtracting). -/
structure DrainResult where
  calls : List Nat
  acc : Nat
  err : Bool
deriving DecidableEq, Repr

/-- The catch-up drain. `ok n` is the outcome of the n-th `Simulate`
invocation inside this drain (`true` = the callback returned nil). On a
callback error the Go code breaks out of the loop before `MarkDone` and
before subtracting from the accumulator. `fuel` bounds the number of
iterations; `simDrain` supplies enough for any positive rate (the Go loop
does not terminate when the rate is 0, a state construction rules out). -/
def simDrainAux (ok : Nat → Bool) (rate : Nat) :
    Nat → Nat → Nat → DrainResult
  | 0, acc, _ => ⟨[], acc, false⟩
  | fuel + 1, acc, n =>
    if rate ≤ acc then
      if ok n then
        let rest := simDrainAux ok rate fuel (acc - rate) (n + 1)
        ⟨rate :: rest.calls, rest.acc, rest.err⟩
      else ⟨[rate], acc, true⟩
    else ⟨[], acc, false⟩

/-- The drain entered with accumulator `acc`: each iteration removes
`rate ≥ 1`, so `acc` itself is enough fuel. -/
def simDrain (ok : Nat → Bool) (rate acc : Nat) : DrainResult :=
  simDrainAux ok rate acc acc 0

/-! ## One base tick of the gcd-tick variant

`case <-tick.C` in `Loop.Start`, src/unnamed/part_002 lines 165-208: add
the frame delta to both accumulators, run the fixed-step drain, then run
the elastic-step render section at most once. A `Simulate` error breaks
only the inner `for`, so the render section still runs in that tick; a
`Render` error breaks out of the `select` case before `rendAccumulator =
leftOver` is executed. -/

/-- The two accumulators threaded from tick to tick
(src/unnamed/part_002 lines 117-118). -/
structure TickState where
  simAccumulator : Nat
  rendAccumulator : Nat
deriving DecidableEq, Repr

/-- Everything one base tick does: the `Simulate` step arguments, whether
`Simulate` errored, the `Render` step arguments (the render section is a
single `if`, so this list is built with at most one element), whether
`Render` errored, and the final accumulators. -/
structure TickResult where
  simCalls : List Nat
  simErr : Bool
  rendCalls : List Nat
  rendErr : Bool
  state : TickState
deriving DecidableEq, Repr

/-- One execution of the `case <-tick.C` body (src/unnamed/part_002 lines
165-208). `simOk n` is the outcome of the n-th `Simulate` call of this
tick; `rendOk` the outcome of the `Render` call if one happens;
`frameTime` is the wall-clock delta since the previous tick. -/
def tickStep (simOk : Nat → Bool) (rendOk : Bool)
    (simulationRate renderRate : Nat) (st : TickState) (frameTime : Nat) :
    TickResult :=
  let simAcc := st.simAccumulator + frameTime
  let rendAcc := st.rendAccumulator + frameTime
  let d := simDrain simOk simulationRate simAcc
  if renderRate ≤ rendAcc then
    let leftOver := rendAcc % renderRate
    if rendOk then
      ⟨d.calls, d.err, [rendAcc - leftOver], false, ⟨d.acc, leftOver⟩⟩
    else
      ⟨d.calls, d.err, [rendAcc - leftOver], true, ⟨d.acc, rendAcc⟩⟩
  else
    ⟨d.calls, d.err, [], false, ⟨d.acc, rendAcc⟩⟩

/-- A run of the tick loop over a sequence of wall-clock deltas, threading
the accumulators. `simOk i` and `rendOk i` are the callback outcomes
during the i-th tick. -/
def runTicks (simOk : Nat → Nat → Bool) (rendOk : Nat → Bool)
    (simulationRate renderRate : Nat) :
    TickState → List Nat → Nat → List TickResult
  | _, [], _ => []
  | st, d :: ds, i =>
    let r := tickStep (simOk i) (rendOk i) simulationRate renderRate st d
    r :: runTicks simOk rendOk simulationRate renderRate r.state ds (i + 1)

/-! ## gcd

`gcd` (src/loop.go lines 215-224, src/unnamed/part_002 lines 217-226):
subtraction-based, `for a != b { if a > b { a -= b } else { b -= a } }`.
It is called from `Start` only after both rates are validated positive
(src/unnamed/part_002 line 145); on a non-positive argument the Go loop
never terminates, which the fuel models by running out. -/

/-- The subtraction loop of `gcd` with explicit fuel; `none` means the
fuel ran out (the Go loop would still be spinning). -/
def gcdGoAux : Nat → Nat → Nat → Option Nat
  | 0, _, _ => none
  | fuel + 1, a, b =>
    if a = b then some a
    else if b < a then gcdGoAux fuel (a - b) b
    else gcdGoAux fuel a (b - a)

/-- `gcd a b`: each iteration shrinks `a + b` when both are positive, so
`a + b` is enough fuel. -/
def gcdGo (a b : Nat) : Option Nat :=
  gcdGoAux (a + b) a b

/-- The tick-period computation of `Loop.Start` in the gcd-tick variant
(src/unnamed/part_002 lines 129-145): validate both rates, then arm the
base ticker with `gcd(l.SimulationRate, l.RenderRate)`. `none` means
validation failed and no ticker was armed. -/
def startTickPeriod (simulationRate renderRate : Int) : Option Nat :=
  if renderRate ≤ 0 then none
  else if simulationRate ≤ 0 then none
  else gcdGo simulationRate.toNat renderRate.toNat

/-! ## The background goroutine of src/loop.go as an event system

The goroutine launched by `Loop.Start` (src/loop.go lines 124-208) is a
`for { select { ... } }` over four wakeup sources: the done channel, the
heartbeat ticker, the simulate timer and the render ticker. The schedule
of wakeups is the environment's choice (Go's `select` picks among ready
cases without priority), so it is an input here. Crucially, the `break`
statement in `case <-l.Done():` (line 160) terminates only the `select`
statement, not the `for` loop (Go language spec), and the loop body has no
`return`: the goroutine can never exit, so the state needs no "exited"
flag — every event leaves it ready to process the next one. -/

/-- A wakeup of the goroutine's `select`: the done channel being closed,
the once-per-second heartbeat ticker, the simulate timer firing at
`curTime`, or the render ticker firing at `curTime` (times in
nanoseconds since some origin). -/
inductive LoopEvent where
  | doneFired
  | heartTick
  | simTimer (curTime : Nat)
  | rendTimer (curTime : Nat)
deriving DecidableEq, Repr

/-- A callback invocation made by the goroutine, with its step argument. -/
inductive CallbackCall where
  | simulateCall (step : Nat)
  | renderCall (step : Nat)
deriving DecidableEq, Repr

/-- The goroutine-local state (src/loop.go lines 147-153) together with
the shared `Loop` it mutates through `l.Stop`. -/
structure RunnerState where
  loop : Loop
  simAccumulator : Nat
  previousSim : Nat
  previousRend : Nat
deriving DecidableEq, Repr

/-- One iteration of the goroutine's `for { select { ... } }`
(src/loop.go lines 157-207), returning the new state and the callback
invocations it performed. `simOk n` is the outcome of the n-th `Simulate`
call of a sim-timer wakeup; `rendOk` the outcome of a `Render` call.
The done case runs `break`, which exits only the `select`; the sim case
accumulates the delta since `previousSim`, drains, and stops the loop on
a callback error; the render case calls `Render` once with the delta
since `previousRend` (this variant has no render accumulator). Monotonic
timestamps make the deltas nonnegative. -/
def runnerStep (simOk : Nat → Bool) (rendOk : Bool) (st : RunnerState) :
    LoopEvent → RunnerState × List CallbackCall
  | LoopEvent.doneFired => (st, [])
  | LoopEvent.heartTick => (st, [])
  | LoopEvent.simTimer curTime =>
    let frameTime := curTime - st.previousSim
    let acc := st.simAccumulator + frameTime
    let d := simDrain simOk st.loop.simulationLatency.toNat acc
    let loop' :=
      if d.err then
        stop st.loop (some (GoError.wrapped TokenSource.simulate
          "Error returned by Simulate"))
      else st.loop
    ({ st with loop := loop', previousSim := curTime, simAccumulator := d.acc },
     d.calls.map CallbackCall.simulateCall)
  | LoopEvent.rendTimer curTime =>
    let frameTime := curTime - st.previousRend
    let loop' :=
      if rendOk then st.loop
      else
        stop st.loop (some (GoError.wrapped TokenSource.render
          "Error returned by Render"))
    ({ st with loop := loop', previousRend := curTime },
     [CallbackCall.renderCall frameTime])

/-! ## latencyTracker (src/unnamed/part_007, second file, lines 74-101) -/

/-- `latencyTracker`: a timestamp anchor and the cumulative work paid off
since the anchor, both in nanoseconds (`Int`, as `time.Time`/`Duration`
differences are signed). -/
structure LatencyTracker where
  start : Int
  finishedWork : Int
deriving DecidableEq, Repr

/-- `newLatencyTracker()`: anchor at the current time, no finished work. -/
def newLatencyTracker (now : Int) : LatencyTracker :=
  { start := now, finishedWork := 0 }

/-- `latencyTracker.MarkDone(workDone)`: add to `finishedWork`. -/
def latencyMarkDone (lt : LatencyTracker) (workDone : Int) : LatencyTracker :=
  { lt with finishedWork := lt.finishedWork + workDone }

/-- `latencyTracker.Latency()` (src/unnamed/part_007 lines 90-101):
`latency = now - (start + finishedWork)`, then `start = now + (-1) *
latency` and `finishedWork = 0`. Returns the latency and the updated
tracker. -/
def latencyRead (lt : LatencyTracker) (now : Int) : Int × LatencyTracker :=
  let current := lt.start + lt.finishedWork
  let latency := now - current
  (latency, { start := now + (-1) * latency, finishedWork := 0 })

/-! ## rateTracker (src/unnamed/part_007, first file, lines 7-67) -/

/-- `rateSampleCount` (src/unnamed/part_007 line 7). -/
def rateSampleCount : Nat := 100

/-- `rateTracker`, with the sample slice as a list (its Go length) plus
its capacity, which `make([]time.Duration, 0, rateSampleCount)` fixes at
`rateSampleCount` while the length starts at 0. -/
structure RateTracker where
  source : TokenSource
  expectedRate : Int
  samples : List Int
  samplesCap : Nat
  curIndex : Nat
deriving DecidableEq, Repr

/-- `newRateTracker` (src/unnamed/part_007 lines 20-28): the samples
slice is `make([]time.Duration, 0, rateSampleCount)` — length 0,
capacity `rateSampleCount`. -/
def newRateTracker (source : TokenSource) (expectedRate : Int) : RateTracker :=
  { source := source, expectedRate := expectedRate, samples := [],
    samplesCap := rateSampleCount, curIndex := 0 }

/-- `rateTracker.MarkDone` (src/unnamed/part_007 lines 42-59), with the
measured `sample` passed in for the wall-clock reads. The Go statement
`r.samples[r.curIndex] = sample` is bounds-checked against the slice
*length* by the Go runtime; `none` models the resulting panic. On
success: increment `curIndex`; once it reaches `cap(r.samples)`, publish
the average and reset to a fresh zero-length slice. -/
def rateMarkDone (r : RateTracker) (sample : Int) : Option RateTracker :=
  if r.curIndex < r.samples.length then
    let samples := r.samples.set r.curIndex sample
    let curIndex := r.curIndex + 1
    if r.samplesCap ≤ curIndex then
      some { r with samples := [], curIndex := 0 }
    else
      some { r with samples := samples, curIndex := curIndex }
  else none

/-! ## Drain lemmas -/

theorem simDrainAux_zero (ok : Nat → Bool) (rate acc n : Nat) :
    simDrainAux ok rate 0 acc n = ⟨[], acc, false⟩ := rfl

theorem simDrainAux_succ (ok : Nat → Bool) (rate fuel acc n : Nat) :
    simDrainAux ok rate (fuel + 1) acc n =
      if rate ≤ acc then
        if ok n then
          let rest := simDrainAux ok rate fuel (acc - rate) (n + 1)
          ⟨rate :: rest.calls, rest.acc, rest.err⟩
        else ⟨[rate], acc, true⟩
      else ⟨[], acc, false⟩ := rfl

/-- Every step argument the drain passes to `Simulate` is the simulation
period — by the shape of the loop body, independent of callback
outcomes, fuel or rate. -/
theorem simDrainAux_calls (ok : Nat → Bool) (rate : Nat) :
    ∀ fuel acc n, ∀ s ∈ (simDrainAux ok rate fuel acc n).calls, s = rate := by
  intro fuel
  induction fuel with
  | zero =>
    intro acc n s hs
    simp [simDrainAux_zero] at hs
  | succ fuel ih =>
    intro acc n s hs
    rw [simDrainAux_succ] at hs
    by_cases h1 : rate ≤ acc
    · by_cases h2 : ok n
      · simp only [if_pos h1, h2, if_pos] at hs
        simp only [List.mem_cons] at hs
        rcases hs with h | h
        · exact h
        · exact ih _ _ _ h
      · simp only [if_pos h1, h2] at hs
        simp at hs
        exact hs
    · simp [if_neg h1] at hs

/-- With an always-succeeding callback and a positive rate, the drain
invokes `Simulate` exactly `acc / rate` times (each with argument `rate`)
and leaves `acc % rate` in the accumulator, provided `fuel ≥ acc`. -/
theorem simDrainAux_allOk (ok : Nat → Bool) (hok : ∀ n, ok n = true)
    (rate : Nat) (hrate : 0 < rate) :
    ∀ fuel acc n, acc ≤ fuel →
      simDrainAux ok rate fuel acc n =
        ⟨List.replicate (acc / rate) rate, acc % rate, false⟩ := by
  intro fuel
  induction fuel with
  | zero =>
    intro acc n hacc
    have h0 : acc = 0 := Nat.le_zero.mp hacc
    subst h0
    simp [simDrainAux_zero, Nat.zero_div, Nat.zero_mod]
  | succ fuel ih =>
    intro acc n hacc
    rw [simDrainAux_succ]
    by_cases h1 : rate ≤ acc
    · have hrec := ih (acc - rate) (n + 1) (by omega)
      simp only [if_pos h1, hok n, if_pos, hrec]
      have hdiv : acc / rate = (acc - rate) / rate + 1 :=
        Nat.div_eq_sub_div hrate h1
      have hmod : acc % rate = (acc - rate) % rate :=
        Nat.mod_eq_sub_mod h1
      simp [hdiv, hmod, List.replicate_succ]
    · have hlt : acc < rate := Nat.lt_of_not_le h1
      simp [if_neg h1, Nat.div_eq_of_lt hlt, Nat.mod_eq_of_lt hlt]

/-- If the drain finished without a callback error, the accumulator it
leaves behind is strictly below the rate (given positive rate and
enough fuel). -/
theorem simDrainAux_noErr_acc_lt (ok : Nat → Bool) (rate : Nat)
    (hrate : 0 < rate) :
    ∀ fuel acc n, acc ≤ fuel →
      (simDrainAux ok rate fuel acc n).err = false →
      (simDrainAux ok rate fuel acc n).acc < rate := by
  intro fuel
  induction fuel with
  | zero =>
    intro acc n hacc _
    have h0 : acc = 0 := Nat.le_zero.mp hacc
    subst h0
    simpa [simDrainAux_zero] using hrate
  | succ fuel ih =>
    intro acc n hacc herr
    rw [simDrainAux_succ] at herr ⊢
    by_cases h1 : rate ≤ acc
    · by_cases h2 : ok n
      · simp only [if_pos h1, h2, if_pos] at herr ⊢
        exact ih (acc - rate) (n + 1) (by omega) herr
      · simp only [if_pos h1, h2] at herr
        simp at herr
    · have hlt : acc < rate := Nat.lt_of_not_le h1
      simpa [if_neg h1] using hlt

theorem simDrain_calls (ok : Nat → Bool) (rate acc : Nat) :
    ∀ s ∈ (simDrain ok rate acc).calls, s = rate :=
  simDrainAux_calls ok rate acc acc 0

theorem simDrain_allOk (ok : Nat → Bool) (hok : ∀ n, ok n = true)
    (rate : Nat) (hrate : 0 < rate) (acc : Nat) :
    simDrain ok rate acc =
      ⟨List.replicate (acc / rate) rate, acc % rate, false⟩ :=
  simDrainAux_allOk ok hok rate hrate acc acc 0 (le_refl acc)

theorem simDrain_noErr_acc_lt (ok : Nat → Bool) (rate : Nat)
    (hrate : 0 < rate) (acc : Nat) :
    (simDrain ok rate acc).err = false →
    (simDrain ok rate acc).acc < rate :=
  simDrainAux_noErr_acc_lt ok rate hrate acc acc 0 (le_refl acc)

/-! ## gcd lemmas -/

theorem gcdGoAux_eq_gcd :
    ∀ fuel a b, 0 < a → 0 < b → a + b ≤ fuel →
      gcdGoAux fuel a b = some (Nat.gcd a b) := by
  intro fuel
  induction fuel with
  | zero =>
    intro a b ha hb hfuel
    omega
  | succ fuel ih =>
    intro a b ha hb hfuel
    by_cases heq : a = b
    · subst heq
      simp [gcdGoAux, Nat.gcd_self]
    · by_cases hlt : b < a
      · have := ih (a - b) b (by omega) hb (by omega)
        simp only [gcdGoAux, if_neg heq, if_pos hlt, this]
        rw [Nat.gcd_sub_self_left (Nat.le_of_lt hlt)]
      · have hba : a < b := by omega
        have := ih a (b - a) ha (by omega) (by omega)
        simp only [gcdGoAux, if_neg heq, if_neg hlt, this]
        rw [Nat.gcd_sub_self_right (Nat.le_of_lt hba)]

theorem gcdGo_eq_gcd (a b : Nat) (ha : 0 < a) (hb : 0 < b) :
    gcdGo a b = some (Nat.gcd a b) :=
  gcdGoAux_eq_gcd (a + b) a b ha hb (le_refl _)

/-! ## Tick-step projection lemmas -/

theorem tickStep_simCalls (simOk : Nat → Bool) (rendOk : Bool)
    (sr rr : Nat) (st : TickState) (d : Nat) :
    (tickStep simOk rendOk sr rr st d).simCalls
      = (simDrain simOk sr (st.simAccumulator + d)).calls := by
  unfold tickStep
  dsimp only
  split_ifs <;> rfl

theorem tickStep_simErr (simOk : Nat → Bool) (rendOk : Bool)
    (sr rr : Nat) (st : TickState) (d : Nat) :
    (tickStep simOk rendOk sr rr st d).simErr
      = (simDrain simOk sr (st.simAccumulator + d)).err := by
  unfold tickStep
  dsimp only
  split_ifs <;> rfl

theorem tickStep_simAcc (simOk : Nat → Bool) (rendOk : Bool)
    (sr rr : Nat) (st : TickState) (d : Nat) :
    (tickStep simOk rendOk sr rr st d).state.simAccumulator
      = (simDrain simOk sr (st.simAccumulator + d)).acc := by
  unfold tickStep
  dsimp only
  split_ifs <;> rfl

theorem runTicks_sim_fixed (simOk : Nat → Nat → Bool) (rendOk : Nat → Bool)
    (sr rr : Nat) :
    ∀ (deltas : List Nat) (st : TickState) (i : Nat),
      ∀ r ∈ runTicks simOk rendOk sr rr st deltas i,
        ∀ s ∈ r.simCalls, s = sr := by
  intro deltas
  induction deltas with
  | nil =>
    intro st i r hr
    simp [runTicks] at hr
  | cons d ds ih =>
    intro st i r hr
    simp only [runTicks, List.mem_cons] at hr
    rcases hr with h | h
    · subst h
      intro s hs
      rw [tickStep_simCalls] at hs
      exact simDrain_calls _ _ _ s hs
    · exact ih _ _ r h

theorem runTicks_acc_bound (simOk : Nat → Nat → Bool) (rendOk : Nat → Bool)
    (sr rr : Nat) (hrate : 0 < sr) :
    ∀ (deltas : List Nat) (st : TickState) (i : Nat),
      ∀ r ∈ runTicks simOk rendOk sr rr st deltas i,
        r.simErr = false → r.state.simAccumulator < sr := by
  intro deltas
  induction deltas with
  | nil =>
    intro st i r hr
    simp [runTicks] at hr
  | cons d ds ih =>
    intro st i r hr
    simp only [runTicks, List.mem_cons] at hr
    rcases hr with h | h
    · subst h
      intro herr
      rw [tickStep_simErr] at herr
      rw [tickStep_simAcc]
      exact simDrain_noErr_acc_lt _ _ hrate _ herr
    · exact ih _ _ r h

/-! ## Lifecycle lemmas -/

theorem stop_curState (l : Loop) (e : Option GoError) :
    (stop l e).curState = LoopState.stStop := by
  unfold stop
  split_ifs with h
  · rfl
  · simpa using h

theorem stop_of_stopped (l : Loop) (e : Option GoError)
    (h : l.curState = LoopState.stStop) : stop l e = l := by
  unfold stop
  simp [h]

/-! ## Claim theorems -/

/-- C1: for every loop whose construction succeeded (positive simulation
period) and any sequence of tick wall-clock deltas and callback outcomes,
every `Simulate` invocation receives exactly the simulation period as its
step argument; and within one tick, when the callback succeeds, the
catch-up drain invokes `Simulate` exactly once per full simulation period
in the accumulator (zero, one, or many times), with argument the period
each time. -/
theorem simulate_fixed_step_exact
    (simOk : Nat → Nat → Bool) (rendOk : Nat → Bool)
    (simulationRate renderRate : Nat) (st : TickState) (deltas : List Nat)
    (i : Nat) (hrate : 0 < simulationRate) :
    (∀ r ∈ runTicks simOk rendOk simulationRate renderRate st deltas i,
       ∀ s ∈ r.simCalls, s = simulationRate)
    ∧ (∀ (ok : Nat → Bool), (∀ n, ok n = true) → ∀ (ro : Bool) (delta : Nat),
        (tickStep ok ro simulationRate renderRate st delta).simCalls
          = List.replicate ((st.simAccumulator + delta) / simulationRate)
              simulationRate) := by
  constructor
  · exact runTicks_sim_fixed simOk rendOk simulationRate renderRate deltas st i
  · intro ok hok ro delta
    rw [tickStep_simCalls, simDrain_allOk ok hok simulationRate hrate]

/-- Witness for C1 at simulation period 2, render period 3, initial
accumulators (1, 1), deltas [5, 2]. -/
theorem simulate_fixed_step_exact_witness :
    0 < 2
    ∧ ((∀ r ∈ runTicks (fun _ _ => true) (fun _ => true) 2 3 ⟨1, 1⟩ [5, 2] 0,
          ∀ s ∈ r.simCalls, s = 2)
      ∧ (∀ (ok : Nat → Bool), (∀ n, ok n = true) → ∀ (ro : Bool) (delta : Nat),
          (tickStep ok ro 2 3 ⟨1, 1⟩ delta).simCalls
            = List.replicate ((1 + delta) / 2) 2)) :=
  ⟨by decide,
   simulate_fixed_step_exact (fun _ _ => true) (fun _ => true) 2 3 ⟨1, 1⟩
     [5, 2] 0 (by decide)⟩

/-- C2: in every tick, `Render` is invoked at most once regardless of
backlog size; it is invoked exactly when the render accumulator (after
adding the tick delta) has reached the render period; its step argument is
the accumulated time minus the leftover remainder; and after a successful
call the render accumulator equals that leftover. -/
theorem render_elastic_step
    (simOk : Nat → Bool) (ro : Bool) (simulationRate renderRate : Nat)
    (st : TickState) (delta : Nat) (hrr : 0 < renderRate) :
    (tickStep simOk ro simulationRate renderRate st delta).rendCalls.length ≤ 1
    ∧ ((tickStep simOk ro simulationRate renderRate st delta).rendCalls ≠ []
        ↔ renderRate ≤ st.rendAccumulator + delta)
    ∧ (∀ w ∈ (tickStep simOk ro simulationRate renderRate st delta).rendCalls,
        w = (st.rendAccumulator + delta)
              - (st.rendAccumulator + delta) % renderRate)
    ∧ ((tickStep simOk ro simulationRate renderRate st delta).rendCalls ≠ []
        → (tickStep simOk ro simulationRate renderRate st delta).rendErr = false
        → (tickStep simOk ro simulationRate renderRate st delta).state.rendAccumulator
            = (st.rendAccumulator + delta) % renderRate) := by
  unfold tickStep
  dsimp only
  split_ifs with h1 h2 <;> simp [h1]

/-- Witness for C2 at render period 3, render accumulator 4, delta 2
(accumulated 6, work 6, leftover 0). -/
theorem render_elastic_step_witness :
    0 < 3
    ∧ ((tickStep (fun _ => true) true 2 3 ⟨0, 4⟩ 2).rendCalls.length ≤ 1
      ∧ ((tickStep (fun _ => true) true 2 3 ⟨0, 4⟩ 2).rendCalls ≠ []
          ↔ 3 ≤ 0 + 4 + 2)
      ∧ (∀ w ∈ (tickStep (fun _ => true) true 2 3 ⟨0, 4⟩ 2).rendCalls,
          w = (4 + 2) - (4 + 2) % 3)
      ∧ ((tickStep (fun _ => true) true 2 3 ⟨0, 4⟩ 2).rendCalls ≠ []
          → (tickStep (fun _ => true) true 2 3 ⟨0, 4⟩ 2).rendErr = false
          → (tickStep (fun _ => true) true 2 3 ⟨0, 4⟩ 2).state.rendAccumulator
              = (4 + 2) % 3)) :=
  ⟨by decide, render_elastic_step (fun _ => true) true 2 3 ⟨0, 4⟩ 2 (by decide)⟩

/-- C5 counterexample: with simulation period 2 and a tick delta of 4, a
`Simulate` callback that fails on its first invocation makes the drain
break without subtracting, leaving the simulation accumulator at 4 ≥ 2
after the drain completes — the claimed bound `simAccumulator <
simulationPeriod` does not hold after that processing step. -/
theorem accumulator_bound_cex :
    ¬ ((tickStep (fun _ => false) true 2 100 ⟨0, 0⟩ 4).state.simAccumulator
        < 2) := by decide

/-- C5 amended: after each tick's catch-up drain completes *without a
simulate callback error*, the simulation accumulator is strictly less
than the simulation period, and this bound holds after every tick of any
run in which the drain reported no error. -/
theorem accumulator_bound_noErr
    (simOk : Nat → Bool) (ro : Bool) (simulationRate renderRate : Nat)
    (st : TickState) (delta : Nat) (hrate : 0 < simulationRate) :
    ((tickStep simOk ro simulationRate renderRate st delta).simErr = false
      → (tickStep simOk ro simulationRate renderRate st delta).state.simAccumulator
          < simulationRate)
    ∧ (∀ (simOks : Nat → Nat → Bool) (rendOks : Nat → Bool)
         (deltas : List Nat) (i : Nat),
        ∀ r ∈ runTicks simOks rendOks simulationRate renderRate st deltas i,
          r.simErr = false → r.state.simAccumulator < simulationRate) := by
  constructor
  · intro herr
    rw [tickStep_simErr] at herr
    rw [tickStep_simAcc]
    exact simDrain_noErr_acc_lt _ _ hrate _ herr
  · intro simOks rendOks deltas i
    exact runTicks_acc_bound simOks rendOks simulationRate renderRate hrate
      deltas st i

/-- Witness for the amended C5 at simulation period 2, accumulators
(1, 0), delta 5. -/
theorem accumulator_bound_noErr_witness :
    0 < 2
    ∧ (((tickStep (fun _ => true) true 2 3 ⟨1, 0⟩ 5).simErr = false
        → (tickStep (fun _ => true) true 2 3 ⟨1, 0⟩ 5).state.simAccumulator < 2)
      ∧ (∀ (simOks : Nat → Nat → Bool) (rendOks : Nat → Bool)
           (deltas : List Nat) (i : Nat),
          ∀ r ∈ runTicks simOks rendOks 2 3 ⟨1, 0⟩ deltas i,
            r.simErr = false → r.state.simAccumulator < 2)) :=
  ⟨by decide,
   accumulator_bound_noErr (fun _ => true) true 2 3 ⟨1, 0⟩ 5 (by decide)⟩

/-- A runner state in which the done signal has already fired exactly
once: the loop was running and `Stop(nil)` was called (src/loop.go lines
87-95), so `close(l.done)` has executed. -/
def runnerAfterStop : RunnerState :=
  { loop := stop
      { renderLatency := 16, simulationLatency := 10,
        curState := LoopState.stRun, err := none, doneClosedCount := 0 }
      none,
    simAccumulator := 0, previousSim := 0, previousRend := 0 }

/-- C3 is violated by src/loop.go: the `break` in `case <-l.Done():`
(line 159-160) terminates only the `select`, not the `for`, and the loop
body has no `return`, so the goroutine keeps selecting after the done
signal has fired. Evaluating the embedded goroutine step: with the done
signal already fired (closed exactly once), the done event leaves the
goroutine state unchanged (it does not exit), and a subsequent render
ticker event still invokes `Render`, and a subsequent simulate timer
event still invokes `Simulate` twice — contradicting the claim that
neither callback is ever invoked again. -/
theorem post_done_invocation_bug :
    runnerAfterStop.loop.doneClosedCount = 1
    ∧ runnerAfterStop.loop.curState = LoopState.stStop
    ∧ (runnerStep (fun _ => true) true runnerAfterStop
        LoopEvent.doneFired).1 = runnerAfterStop
    ∧ (runnerStep (fun _ => true) true
        ((runnerStep (fun _ => true) true runnerAfterStop
          LoopEvent.doneFired).1)
        (LoopEvent.rendTimer 16)).2
      = [CallbackCall.renderCall 16]
    ∧ (runnerStep (fun _ => true) true
        ((runnerStep (fun _ => true) true runnerAfterStop
          LoopEvent.doneFired).1)
        (LoopEvent.simTimer 20)).2
      = [CallbackCall.simulateCall 10, CallbackCall.simulateCall 10] := by
  decide

/-- C4: `Stop` is first-call-wins and idempotent afterwards. From any
not-yet-stopped loop, `Stop(errA)` records `errA` and closes the done
channel exactly once; a later `Stop(errB)` leaves the error at `errA`,
does not close the channel again, and in fact changes nothing — nor does
any further sequence of `Stop` calls. -/
theorem stop_first_call_wins (l : Loop) (a b : Option GoError)
    (h : l.curState ≠ LoopState.stStop) :
    (stop l a).err = a
    ∧ (stop l a).doneClosedCount = l.doneClosedCount + 1
    ∧ (stop (stop l a) b).err = a
    ∧ (stop (stop l a) b).doneClosedCount = l.doneClosedCount + 1
    ∧ (∀ e, stop (stop l a) e = stop l a)
    ∧ (∀ es : List (Option GoError),
        List.foldl stop (stop l a) es = stop l a) := by
  have h1 : stop l a =
      { l with doneClosedCount := l.doneClosedCount + 1, err := a,
               curState := LoopState.stStop } := by
    unfold stop
    rw [if_pos h]
  have h2 : ∀ e, stop (stop l a) e = stop l a := by
    intro e
    apply stop_of_stopped
    exact stop_curState l a
  refine ⟨by rw [h1], by rw [h1], by rw [h2 b, h1], by rw [h2 b, h1], h2, ?_⟩
  intro es
  induction es with
  | nil => rfl
  | cons e es ih =>
    rw [List.foldl_cons, h2 e, ih]

/-- Witness for C4: a running loop, `Stop(user 1)` then `Stop(user 2)`. -/
theorem stop_first_call_wins_witness :
    (Loop.mk 16 10 LoopState.stRun none 0).curState ≠ LoopState.stStop
    ∧ ((stop (Loop.mk 16 10 LoopState.stRun none 0)
          (some (GoError.user 1))).err = some (GoError.user 1)
      ∧ (stop (Loop.mk 16 10 LoopState.stRun none 0)
          (some (GoError.user 1))).doneClosedCount = 0 + 1
      ∧ (stop (stop (Loop.mk 16 10 LoopState.stRun none 0)
            (some (GoError.user 1))) (some (GoError.user 2))).err
          = some (GoError.user 1)
      ∧ (stop (stop (Loop.mk 16 10 LoopState.stRun none 0)
            (some (GoError.user 1))) (some (GoError.user 2))).doneClosedCount
          = 0 + 1
      ∧ (∀ e, stop (stop (Loop.mk 16 10 LoopState.stRun none 0)
            (some (GoError.user 1))) e
          = stop (Loop.mk 16 10 LoopState.stRun none 0)
              (some (GoError.user 1)))
      ∧ (∀ es : List (Option GoError),
          List.foldl stop
            (stop (Loop.mk 16 10 LoopState.stRun none 0)
              (some (GoError.user 1))) es
          = stop (Loop.mk 16 10 LoopState.stRun none 0)
              (some (GoError.user 1)))) :=
  ⟨by decide,
   stop_first_call_wins (Loop.mk 16 10 LoopState.stRun none 0)
     (some (GoError.user 1)) (some (GoError.user 2)) (by decide)⟩

/-- C6: with both rates positive (the only way `Start` reaches the ticker
set-up), the base tick period armed by `Start` is exactly the greatest
common divisor of the simulation and render rates; it divides both rates,
so every target instant of either activity — any multiple of its rate —
falls on a tick boundary. -/
theorem start_tick_period_gcd (simulationRate renderRate : Int)
    (hs : 0 < simulationRate) (hr : 0 < renderRate) :
    startTickPeriod simulationRate renderRate
        = some (Nat.gcd simulationRate.toNat renderRate.toNat)
    ∧ Nat.gcd simulationRate.toNat renderRate.toNat ∣ simulationRate.toNat
    ∧ Nat.gcd simulationRate.toNat renderRate.toNat ∣ renderRate.toNat
    ∧ (∀ k : Nat,
        Nat.gcd simulationRate.toNat renderRate.toNat
            ∣ k * simulationRate.toNat
        ∧ Nat.gcd simulationRate.toNat renderRate.toNat
            ∣ k * renderRate.toNat) := by
  refine ⟨?_, Nat.gcd_dvd_left _ _, Nat.gcd_dvd_right _ _, ?_⟩
  · unfold startTickPeriod
    rw [if_neg (by omega), if_neg (by omega)]
    exact gcdGo_eq_gcd _ _ (by omega) (by omega)
  · intro k
    exact ⟨Dvd.dvd.mul_left (Nat.gcd_dvd_left _ _) k,
           Dvd.dvd.mul_left (Nat.gcd_dvd_right _ _) k⟩

/-- Witness for C6 at simulation rate 10, render rate 16 (gcd 2). -/
theorem start_tick_period_gcd_witness :
    (0 : Int) < 10 ∧ (0 : Int) < 16
    ∧ (startTickPeriod 10 16 = some (Nat.gcd (Int.toNat 10) (Int.toNat 16))
      ∧ Nat.gcd (Int.toNat 10) (Int.toNat 16) ∣ Int.toNat 10
      ∧ Nat.gcd (Int.toNat 10) (Int.toNat 16) ∣ Int.toNat 16
      ∧ (∀ k : Nat,
          Nat.gcd (Int.toNat 10) (Int.toNat 16) ∣ k * Int.toNat 10
          ∧ Nat.gcd (Int.toNat 10) (Int.toNat 16) ∣ k * Int.toNat 16)) :=
  ⟨by decide, by decide, start_tick_period_gcd 10 16 (by decide) (by decide)⟩

/-- C7: `Start` on a loop that is not `Idle` returns a `LoopError` with
source `TokenLoop`, leaves the loop exactly as it was, and launches no
goroutine; and since `Stop` always leaves the state at `stateStop`, a
stopped loop can never be restarted. -/
theorem start_non_idle_rejected (l : Loop)
    (h : l.curState ≠ LoopState.stInit) :
    (startGo l).loop = l
    ∧ (startGo l).ret = some (GoError.wrapped TokenSource.loop
        "Loop is already running or is done")
    ∧ (startGo l).launched = false
    ∧ (∀ (l' : Loop) (e : Option GoError),
        (startGo (stop l' e)).loop = stop l' e
        ∧ (startGo (stop l' e)).ret.isSome = true
        ∧ (startGo (stop l' e)).launched = false) := by
  have hl : startGo l =
      { loop := l,
        ret := some (GoError.wrapped TokenSource.loop
          "Loop is already running or is done"),
        launched := false } := by
    unfold startGo
    rw [if_pos h]
  refine ⟨by rw [hl], by rw [hl], by rw [hl], ?_⟩
  intro l' e
  have h' : (stop l' e).curState ≠ LoopState.stInit := by
    rw [stop_curState]
    intro hc
    exact LoopState.noConfusion hc
  have hl' : startGo (stop l' e) =
      { loop := stop l' e,
        ret := some (GoError.wrapped TokenSource.loop
          "Loop is already running or is done"),
        launched := false } := by
    unfold startGo
    rw [if_pos h']
  exact ⟨by rw [hl'], by rw [hl']; rfl, by rw [hl']⟩

/-- Witness for C7: `Start` on an already-running loop. -/
theorem start_non_idle_rejected_witness :
    (Loop.mk 16 10 LoopState.stRun none 0).curState ≠ LoopState.stInit
    ∧ ((startGo (Loop.mk 16 10 LoopState.stRun none 0)).loop
          = Loop.mk 16 10 LoopState.stRun none 0
      ∧ (startGo (Loop.mk 16 10 LoopState.stRun none 0)).ret
          = some (GoError.wrapped TokenSource.loop
              "Loop is already running or is done")
      ∧ (startGo (Loop.mk 16 10 LoopState.stRun none 0)).launched = false
      ∧ (∀ (l' : Loop) (e : Option GoError),
          (startGo (stop l' e)).loop = stop l' e
          ∧ (startGo (stop l' e)).ret.isSome = true
          ∧ (startGo (stop l' e)).launched = false)) :=
  ⟨by decide,
   start_non_idle_rejected (Loop.mk 16 10 LoopState.stRun none 0)
     (by decide)⟩

/-- C8: `NewLoop` with a non-positive render or simulation period fails
synchronously with a `LoopError` of source `TokenLoop` and returns no
loop; with both periods positive it returns a loop in the `stateInit`
state with no error, an unclosed done channel, and an empty trace of
callback invocations. -/
theorem newLoop_validation :
    (∀ r s : Int, r ≤ 0 ∨ s ≤ 0 →
      ∃ msg, NewLoop r s
        = Except.error (GoError.wrapped TokenSource.loop msg))
    ∧ (∀ r s : Int, 0 < r → 0 < s →
      NewLoop r s = Except.ok
        ({ renderLatency := r, simulationLatency := s,
           curState := LoopState.stInit, err := none,
           doneClosedCount := 0 }, [])) := by
  constructor
  · intro r s hrs
    unfold NewLoop
    by_cases hr : r ≤ 0
    · exact ⟨"RenderRate can't be lte 0", by rw [if_pos hr]⟩
    · have hs : s ≤ 0 := by omega
      exact ⟨"SimulationRate can't be lte 0",
        by rw [if_neg hr, if_pos hs]⟩
  · intro r s hr hs
    unfold NewLoop
    rw [if_neg (by omega), if_neg (by omega)]

/-- Witness for C8: `NewLoop 0 16` and `NewLoop 16 (-1)` fail, while
`NewLoop 16 10` yields an idle loop. -/
theorem newLoop_validation_witness :
    (∃ msg, NewLoop 0 16
        = Except.error (GoError.wrapped TokenSource.loop msg))
    ∧ (∃ msg, NewLoop 16 (-1)
        = Except.error (GoError.wrapped TokenSource.loop msg))
    ∧ NewLoop 16 10 = Except.ok
        ({ renderLatency := 16, simulationLatency := 10,
           curState := LoopState.stInit, err := none,
           doneClosedCount := 0 }, []) :=
  ⟨newLoop_validation.1 0 16 (Or.inl (by decide)),
   newLoop_validation.1 16 (-1) (Or.inr (by decide)),
   newLoop_validation.2 16 10 (by decide) (by decide)⟩

/-- C9: a `Latency()` read returning `L` leaves the tracker with anchor
plus completed work equal to `now - L` and completed work zero; an
immediate second read therefore returns the same `L`, while the stored
durations have been reset instead of growing. -/
theorem latency_read_resets_anchor (lt : LatencyTracker) (now : Int) :
    (latencyRead lt now).2.start + (latencyRead lt now).2.finishedWork
        = now - (latencyRead lt now).1
    ∧ (latencyRead lt now).2.finishedWork = 0
    ∧ (latencyRead (latencyRead lt now).2 now).1 = (latencyRead lt now).1
    ∧ (latencyRead (latencyMarkDone lt 0) now).1 = (latencyRead lt now).1 := by
  unfold latencyRead latencyMarkDone
  dsimp only
  refine ⟨by ring, rfl, by ring, by ring⟩

/-- C10 is violated by src/unnamed/part_007: `newRateTracker` builds the
samples slice with `make([]time.Duration, 0, rateSampleCount)` — length
0 — while `MarkDone` writes `r.samples[r.curIndex] = sample`, which the
Go runtime bounds-checks against the slice *length*. The very first
`MarkDone` call on a fresh tracker therefore panics with an index
out-of-range (modelled as `none`); the write is never in-bounds until the
slice is grown, which no code path does. -/
theorem rate_tracker_first_mark_done_panics :
    rateMarkDone (newRateTracker TokenSource.simulate 10) 5 = none
    ∧ (newRateTracker TokenSource.simulate 10).samples.length = 0
    ∧ (newRateTracker TokenSource.simulate 10).samplesCap = 100
    ∧ (∀ (src : TokenSource) (rate sample : Int),
        rateMarkDone (newRateTracker src rate) sample = none) := by
  refine ⟨by decide, by decide, by decide, ?_⟩
  intro src rate sample
  rfl

end Gloop
